import Mathlib

/-
Verification of the upload polling loop of Code.py (class WorkerThread)
in a shallow embedding.

Modelling conventions:
- A spreadsheet row is a list of cell strings; a grid is a list of rows.
- The ledger (self.uploaded_files) is an association list from filename to
  the last-known modification time.
- External effects are explicit: every outcome of a call into the outside
  world (reading an Excel file, fetching existing rows from the remote
  sheet, appending rows, saving the ledger) is supplied as an input of type
  Except String _, where Except.error models a Python exception raised by
  that call.
- The observable behaviour of a run is a trace of Obs values: the Qt signal
  emissions (upload_successful, upload_failed, internet_connected,
  internet_disconnected) and the external calls made (folder listing,
  remote fetch, remote append, ledger save, sleep, connectivity check).
- Message strings follow the source messages with quotes stripped.
-/

namespace Code

/-- A spreadsheet row: an ordered sequence of cell values. -/
abbrev Row := List String

/-- A grid: an ordered sequence of rows, as produced by get_excel_data and
by the remote fetch. -/
abbrev Grid := List Row

/-- The uploaded-file ledger, self.uploaded_files: a mapping from filename
to last-known modification time, modelled as an association list. -/
abbrev Ledger := List (String × Nat)

/-- Dictionary lookup, uploaded_files[filename], combined with the
membership test filename in uploaded_files: none models absence. -/
def ledgerGet : Ledger → String → Option Nat
  | [], _ => none
  | (k, v) :: rest, fn => if k = fn then some v else ledgerGet rest fn

/-- Dictionary assignment, uploaded_files[filename] = t: replaces the
binding when the key is present, otherwise adds it. -/
def ledgerSet : Ledger → String → Nat → Ledger
  | [], fn, t => [(fn, t)]
  | (k, v) :: rest, fn, t =>
      if k = fn then (fn, t) :: rest else (k, v) :: ledgerSet rest fn t

/-- The Qt signals the worker emits: upload_successful and upload_failed
carry a message; the two internet signals carry none. -/
inductive Event where
  | uploadSuccessful (msg : String)
  | uploadFailed (msg : String)
  | internetConnected
  | internetDisconnected
deriving DecidableEq

/-- One observable step of the worker: a signal emission or an external
call. Obs.fetch is the values().get call, Obs.append the values().append
call with the rows it submits, Obs.saveLedger the save_uploaded_files call
with the mapping it writes, Obs.listDir the os.listdir call, Obs.connCheck
the is_connected probe and Obs.sleep the time.sleep call. -/
inductive Obs where
  | emit (e : Event)
  | fetch
  | append (rows : Grid)
  | saveLedger (l : Ledger)
  | listDir
  | connCheck
  | sleep (seconds : Nat)
deriving DecidableEq

/-- Python str.endswith for one suffix: a case-sensitive match on the
character sequence. -/
def pyEndsWith (s suffix : String) : Bool :=
  decide (suffix.data <:+ s.data)

/-- The extension filter of line 90, filename.endswith((".xlsx", ".xls")):
true when the name ends with one of the fixed allowed extensions. -/
def hasAllowedExt (name : String) : Bool :=
  pyEndsWith name ".xlsx" || pyEndsWith name ".xls"

/-- Message of line 96: skip notice for an unmodified file. -/
def skipMsg (fn : String) : String :=
  "Bo qua " ++ fn ++ ": Da tai len google sheet (No modification)."

/-- Message of line 99: a new or modified file is being examined. -/
def checkMsg (fn : String) : String :=
  "Kiem tra file moi: " ++ fn

/-- Message of line 61: reading the Excel file raised an exception. -/
def readErrMsg (fn e : String) : String :=
  "Error reading file " ++ fn ++ ": " ++ e

/-- Message of line 51: the remote fetch raised an exception. -/
def fetchErrMsg (e : String) : String :=
  "Error fetching Google Sheets data: " ++ e

/-- Message of line 120: the file was uploaded. -/
def successMsg (fn ts : String) : String :=
  "File " ++ fn ++ " Tai len vao " ++ ts

/-- Message of line 127: every row of the batch already exists remotely. -/
def dupMsg (fn : String) : String :=
  "File " ++ fn ++ " contains only duplicate data. Skipping upload."

/-- Message of line 130: the append or the ledger save raised. -/
def sendErrMsg (fn e : String) : String :=
  "Error sending file " ++ fn ++ " to Google Sheets: " ++ e

/-- Message of line 133: os.listdir raised FileNotFoundError. -/
def folderNotFoundMsg : String :=
  "Error: Folder not found."

/-- Message of line 84: folder path, sheet id or service not set. -/
def notConfiguredMsg : String :=
  "Error: Folder path, Google Sheet ID, or service not initialized."

/-- Message of line 140: waiting for the next scan. -/
def waitMsg : String :=
  "Doi interval_seconds giay de tiep tuc quet..."

/-- Message of line 143, emitted when the running flag is seen false. -/
def stoppedMsg : String :=
  "Worker thread stopped."

/-- Message of line 77, emitted once before the loop. -/
def startedMsg : String :=
  "Worker thread started..."

/-- The timestamp header row of line 106, the first row of every batch. -/
def headerRow (ts : String) : Row :=
  ["Uploaded on: " ++ ts]

/-- The outcomes of the external calls made while processing one file:
the modification time returned by os.path.getmtime, the timestamp string
of time.strftime, and the results of the Excel read, the remote fetch,
the remote append and the ledger save; an Except.error models an
exception raised by that call. -/
structure FileEnv where
  mtime : Nat
  timestamp : String
  readResult : Except String Grid
  fetchResult : Except String Grid
  appendResult : Except String Unit
  saveResult : Except String Unit

/-- get_excel_data, lines 54 to 62: returns the grid on success; on an
exception it emits an upload_failed message and returns the empty list. -/
def get_excel_data (fn : String) (res : Except String Grid) :
    List Obs × Grid :=
  match res with
  | .ok g => ([], g)
  | .error e => ([Obs.emit (.uploadFailed (readErrMsg fn e))], [])

/-- get_existing_google_sheets_data, lines 42 to 52: performs the remote
fetch; on success returns the rows, on an exception emits an
upload_failed message and returns the empty list. -/
def get_existing_google_sheets_data (res : Except String Grid) :
    List Obs × Grid :=
  match res with
  | .ok g => ([Obs.fetch], g)
  | .error e => ([Obs.fetch, Obs.emit (.uploadFailed (fetchErrMsg e))], [])

/-- Lines 102 to 130, the body run for one file after the skip check: read
the grid; when it is nonempty build the batch of header row plus grid,
fetch the existing rows, keep the batch rows not present remotely, and
when any remain append them; on append success emit the success message,
update the ledger entry and save the ledger; an exception from the append
or the save is caught and reported by the handler of line 129. Returns
the trace after the line 99 emission together with the ledger state. -/
def processFileBody (ledger : Ledger) (fn : String) (env : FileEnv) :
    List Obs × Ledger :=
  let rd := get_excel_data fn env.readResult
  if rd.2 = [] then
    (rd.1, ledger)
  else
    let new_data := [headerRow env.timestamp] ++ rd.2
    let fe := get_existing_google_sheets_data env.fetchResult
    let filtered := new_data.filter (fun row => decide (row ∉ fe.2))
    if filtered = [] then
      (rd.1 ++ fe.1 ++ [Obs.emit (.uploadSuccessful (dupMsg fn))], ledger)
    else
      match env.appendResult with
      | .error e =>
          (rd.1 ++ fe.1 ++
            [Obs.append filtered, Obs.emit (.uploadFailed (sendErrMsg fn e))],
           ledger)
      | .ok _ =>
          let ledger2 := ledgerSet ledger fn env.mtime
          match env.saveResult with
          | .ok _ =>
              (rd.1 ++ fe.1 ++
                [Obs.append filtered,
                 Obs.emit (.uploadSuccessful (successMsg fn env.timestamp)),
                 Obs.saveLedger ledger2],
               ledger2)
          | .error e =>
              (rd.1 ++ fe.1 ++
                [Obs.append filtered,
                 Obs.emit (.uploadSuccessful (successMsg fn env.timestamp)),
                 Obs.saveLedger ledger2,
                 Obs.emit (.uploadFailed (sendErrMsg fn e))],
               ledger2)

/-- Lines 92 to 130, processing of one file whose name passed the
extension filter: read the modification time; when the ledger already maps
the name to that time emit the skip notice and continue, otherwise emit
the line 99 notice and run the body. -/
def processFile (ledger : Ledger) (fn : String) (env : FileEnv) :
    List Obs × Ledger :=
  if ledgerGet ledger fn = some env.mtime then
    ([Obs.emit (.uploadFailed (skipMsg fn))], ledger)
  else
    let r := processFileBody ledger fn env
    (Obs.emit (.uploadFailed (checkMsg fn)) :: r.1, r.2)

/-- Lines 89 to 90 for one directory entry: a name that fails the
extension filter is not processed at all. -/
def processEntry (ledger : Ledger) (fn : String) (envs : String → FileEnv) :
    List Obs × Ledger :=
  if hasAllowedExt fn then processFile ledger fn (envs fn) else ([], ledger)

/-- The for loop of lines 89 to 130: the directory entries are processed
strictly in order, threading the ledger; the running flag is not consulted
inside this loop. -/
def processFiles (ledger : Ledger) (files : List String)
    (envs : String → FileEnv) : List Obs × Ledger :=
  match files with
  | [] => ([], ledger)
  | fn :: rest =>
      let r := processEntry ledger fn envs
      let r2 := processFiles r.2 rest envs
      (r.1 ++ r2.1, r2.2)

/-- Lines 88 to 135: list the folder and process the entries; a
FileNotFoundError from os.listdir is caught and reported, aborting the
pass. The listing input is the immediate entries of the directory, or an
error when the directory is missing. -/
def scanPass (ledger : Ledger) (listing : Except Unit (List String))
    (envs : String → FileEnv) : List Obs × Ledger :=
  match listing with
  | .error _ => ([Obs.listDir, Obs.emit (.uploadFailed folderNotFoundMsg)], ledger)
  | .ok entries =>
      let r := processFiles ledger entries envs
      (Obs.listDir :: r.1, r.2)

/-- The inputs of one iteration of the while loop: the outcome of the
connectivity check, whether folder path, sheet id and service are all set
(line 83), the folder listing and the per-file call outcomes. -/
structure IterEnv where
  connected : Bool
  configured : Bool
  listing : Except Unit (List String)
  fileEnvs : String → FileEnv

/-- Lines 79 to 141, one iteration of the while loop after the running
flag was seen true: check connectivity; when disconnected only emit the
disconnect signal, the wait notice and sleep; when connected emit the
connect signal and the scanning notice, then either report a missing
configuration and sleep (the continue of line 86 skips the wait notice)
or run the scan pass, emit the wait notice and sleep. -/
def loopIter (ledger : Ledger) (interval : Nat) (env : IterEnv) :
    List Obs × Ledger :=
  if env.connected then
    if env.configured then
      let r := scanPass ledger env.listing env.fileEnvs
      ([Obs.connCheck, Obs.emit .internetConnected,
        Obs.emit (.uploadFailed "Internet is connected. Scanning folder...")]
        ++ r.1
        ++ [Obs.emit (.uploadFailed waitMsg), Obs.sleep interval],
       r.2)
    else
      ([Obs.connCheck, Obs.emit .internetConnected,
        Obs.emit (.uploadFailed "Internet is connected. Scanning folder..."),
        Obs.emit (.uploadFailed notConfiguredMsg), Obs.sleep interval],
       ledger)
  else
    ([Obs.connCheck, Obs.emit .internetDisconnected,
      Obs.emit (.uploadFailed waitMsg), Obs.sleep interval],
     ledger)

/-- The while loop of lines 78 to 141, fuel bounded: running i is the
value of self.running observed by the check at the top of iteration i,
the only place the flag is read; envs i supplies the external outcomes of
iteration i. When the flag is seen false the loop exits and line 143
emits the stopped message. -/
def runLoop (fuel i : Nat) (ledger : Ledger) (interval : Nat)
    (running : Nat → Bool) (envs : Nat → IterEnv) : List Obs × Ledger :=
  match fuel with
  | 0 => ([], ledger)
  | fuel' + 1 =>
      if running i then
        let r := loopIter ledger interval (envs i)
        let r2 := runLoop fuel' (i + 1) r.2 interval running envs
        (r.1 ++ r2.1, r2.2)
      else
        ([Obs.emit (.uploadFailed stoppedMsg)], ledger)

/-- load_uploaded_files, lines 64 to 69: when the ledger file exists,
return the outcome of unpickling it, an exception included; otherwise
return the empty mapping. No exception handler is present. -/
def load_uploaded_files (fileExists : Bool)
    (loadResult : Except String Ledger) : Except String Ledger :=
  if fileExists then loadResult else .ok []

/-- Line 32, the worker constructor loading the ledger: no emission is
made and a load exception propagates out of the constructor uncaught.
Returns the emitted trace together with the outcome. -/
def initWorker (fileExists : Bool) (loadResult : Except String Ledger) :
    List Obs × Except String Ledger :=
  ([], load_uploaded_files fileExists loadResult)

/-- Updating the ledger for a name and reading it back yields the new
time. -/
theorem ledgerGet_ledgerSet (l : Ledger) (fn : String) (t : Nat) :
    ledgerGet (ledgerSet l fn t) fn = some t := by
  induction l with
  | nil => simp [ledgerSet, ledgerGet]
  | cons p rest ih =>
      by_cases h : p.1 = fn
      · simp [ledgerSet, ledgerGet, h]
      · simp [ledgerSet, ledgerGet, h, ih]

/-- C3: a file whose name is in the ledger with its current modification
time is skipped: the per-file trace is exactly the skip notice, so no
remote fetch and no remote append happen for it, and the ledger is
returned unchanged. -/
theorem skip_unmodified_no_remote_calls (ledger : Ledger) (fn : String)
    (env : FileEnv) (h : ledgerGet ledger fn = some env.mtime) :
    processFile ledger fn env
      = ([Obs.emit (.uploadFailed (skipMsg fn))], ledger) ∧
    Obs.fetch ∉ (processFile ledger fn env).1 ∧
    (∀ rows, Obs.append rows ∉ (processFile ledger fn env).1) := by
  simp [processFile, h]

/-- Concrete instance of skip_unmodified_no_remote_calls. -/
def envC3 : FileEnv :=
  ⟨5, "T", .ok [["x"]], .ok [], .ok (), .ok ()⟩

theorem skip_unmodified_no_remote_calls_witness :
    ledgerGet [("a.xlsx", 5)] "a.xlsx" = some envC3.mtime ∧
    (processFile [("a.xlsx", 5)] "a.xlsx" envC3
        = ([Obs.emit (.uploadFailed (skipMsg "a.xlsx"))], [("a.xlsx", 5)]) ∧
      Obs.fetch ∉ (processFile [("a.xlsx", 5)] "a.xlsx" envC3).1 ∧
      (∀ rows, Obs.append rows ∉ (processFile [("a.xlsx", 5)] "a.xlsx" envC3).1)) :=
  ⟨by decide, skip_unmodified_no_remote_calls _ _ _ (by decide)⟩

/-- C10: a file whose reader yields the empty grid, whether the sheet is
empty or the read raised and the handler returned the empty list, causes
no remote fetch, no remote append and no ledger save, and the ledger is
returned unchanged, so the file is examined again on the next pass. -/
theorem empty_grid_no_effects (ledger : Ledger) (fn : String) (env : FileEnv)
    (hskip : ¬ ledgerGet ledger fn = some env.mtime)
    (hempty : (get_excel_data fn env.readResult).2 = []) :
    processFile ledger fn env
      = (Obs.emit (.uploadFailed (checkMsg fn))
          :: (get_excel_data fn env.readResult).1, ledger) ∧
    Obs.fetch ∉ (processFile ledger fn env).1 ∧
    (∀ rows, Obs.append rows ∉ (processFile ledger fn env).1) ∧
    (∀ l, Obs.saveLedger l ∉ (processFile ledger fn env).1) := by
  have hbody : processFileBody ledger fn env
      = ((get_excel_data fn env.readResult).1, ledger) := by
    unfold processFileBody
    simp [hempty]
  refine ⟨?_, ?_⟩
  · simp [processFile, hskip, hbody]
  · simp only [processFile, hskip, if_false, if_neg, hbody]
    cases hr : env.readResult with
    | ok g => simp [get_excel_data]
    | error e => simp [get_excel_data]

/-- Concrete instance of empty_grid_no_effects, with a failing read. -/
def envC10 : FileEnv :=
  ⟨7, "T", .error "file locked", .ok [], .ok (), .ok ()⟩

theorem empty_grid_no_effects_witness :
    ¬ ledgerGet [] "a.xlsx" = some envC10.mtime ∧
    (processFile [] "a.xlsx" envC10
        = (Obs.emit (.uploadFailed (checkMsg "a.xlsx"))
            :: (get_excel_data "a.xlsx" envC10.readResult).1, []) ∧
      Obs.fetch ∉ (processFile [] "a.xlsx" envC10).1 ∧
      (∀ rows, Obs.append rows ∉ (processFile [] "a.xlsx" envC10).1) ∧
      (∀ l, Obs.saveLedger l ∉ (processFile [] "a.xlsx" envC10).1)) :=
  ⟨by decide, empty_grid_no_effects _ _ _ (by decide) (by decide)⟩

/-- Unfolding of processFile when the ledger check does not skip: the
line 99 notice is emitted and the body runs. -/
theorem processFile_eq_check (ledger : Ledger) (fn : String) (env : FileEnv)
    (hskip : ¬ ledgerGet ledger fn = some env.mtime) :
    processFile ledger fn env
      = (Obs.emit (.uploadFailed (checkMsg fn))
          :: (processFileBody ledger fn env).1,
         (processFileBody ledger fn env).2) := by
  unfold processFile
  rw [if_neg hskip]

/-- Unfolding of processFileBody when the read succeeds with a nonempty
grid and the fetch succeeds. -/
theorem processFileBody_eq (ledger : Ledger) (fn : String) (env : FileEnv)
    (g ex : Grid) (hread : env.readResult = .ok g) (hg : g ≠ [])
    (hfetch : env.fetchResult = .ok ex) :
    processFileBody ledger fn env
      = (if ([headerRow env.timestamp] ++ g).filter
            (fun row => decide (row ∉ ex)) = [] then
          ([Obs.fetch, Obs.emit (.uploadSuccessful (dupMsg fn))], ledger)
        else
          match env.appendResult with
          | .error e =>
              ([Obs.fetch,
                Obs.append (([headerRow env.timestamp] ++ g).filter
                  (fun row => decide (row ∉ ex))),
                Obs.emit (.uploadFailed (sendErrMsg fn e))],
               ledger)
          | .ok _ =>
              match env.saveResult with
              | .ok _ =>
                  ([Obs.fetch,
                    Obs.append (([headerRow env.timestamp] ++ g).filter
                      (fun row => decide (row ∉ ex))),
                    Obs.emit (.uploadSuccessful (successMsg fn env.timestamp)),
                    Obs.saveLedger (ledgerSet ledger fn env.mtime)],
                   ledgerSet ledger fn env.mtime)
              | .error e =>
                  ([Obs.fetch,
                    Obs.append (([headerRow env.timestamp] ++ g).filter
                      (fun row => decide (row ∉ ex))),
                    Obs.emit (.uploadSuccessful (successMsg fn env.timestamp)),
                    Obs.saveLedger (ledgerSet ledger fn env.mtime),
                    Obs.emit (.uploadFailed (sendErrMsg fn e))],
                   ledgerSet ledger fn env.mtime)) := by
  unfold processFileBody
  rw [hread, hfetch]
  simp only [get_excel_data, get_existing_google_sheets_data]
  rw [if_neg hg]
  simp only [List.nil_append, List.singleton_append]

/-- C5: when every row of the batch is already present remotely the
filtered batch is empty, no append call happens, and the event is
reported with the duplicate message on the upload_successful channel;
the ledger is unchanged. -/
theorem dup_batch_no_append (ledger : Ledger) (fn : String) (env : FileEnv)
    (g ex : Grid)
    (hskip : ¬ ledgerGet ledger fn = some env.mtime)
    (hread : env.readResult = .ok g) (hg : g ≠ [])
    (hfetch : env.fetchResult = .ok ex)
    (hfil : ([headerRow env.timestamp] ++ g).filter
        (fun row => decide (row ∉ ex)) = []) :
    processFile ledger fn env
      = ([Obs.emit (.uploadFailed (checkMsg fn)), Obs.fetch,
          Obs.emit (.uploadSuccessful (dupMsg fn))], ledger) ∧
    (∀ rows, Obs.append rows ∉ (processFile ledger fn env).1) := by
  have heq : processFile ledger fn env
      = ([Obs.emit (.uploadFailed (checkMsg fn)), Obs.fetch,
          Obs.emit (.uploadSuccessful (dupMsg fn))], ledger) := by
    rw [processFile_eq_check _ _ _ hskip,
      processFileBody_eq _ _ _ _ _ hread hg hfetch, if_pos hfil]
  exact ⟨heq, by simp [heq]⟩

/-- Concrete instance of dup_batch_no_append: the remote sheet already
holds the header row and the single data row. -/
def envC5 : FileEnv :=
  ⟨7, "T", .ok [["x"]], .ok [["Uploaded on: T"], ["x"]], .ok (), .ok ()⟩

theorem dup_batch_no_append_witness :
    (¬ ledgerGet [] "a.xlsx" = some envC5.mtime ∧
      envC5.readResult = .ok [["x"]] ∧ ([["x"]] : Grid) ≠ [] ∧
      envC5.fetchResult = .ok [["Uploaded on: T"], ["x"]] ∧
      ([headerRow envC5.timestamp] ++ [["x"]]).filter
        (fun row => decide (row ∉ ([["Uploaded on: T"], ["x"]] : Grid))) = []) ∧
    (processFile [] "a.xlsx" envC5
        = ([Obs.emit (.uploadFailed (checkMsg "a.xlsx")), Obs.fetch,
            Obs.emit (.uploadSuccessful (dupMsg "a.xlsx"))], []) ∧
      (∀ rows, Obs.append rows ∉ (processFile [] "a.xlsx" envC5).1)) :=
  ⟨⟨by decide, rfl, by decide, rfl, by decide⟩,
    dup_batch_no_append [] "a.xlsx" envC5 [["x"]] [["Uploaded on: T"], ["x"]]
      (by decide) rfl (by decide) rfl (by decide)⟩

/-- C1: for an upload attempt that reaches the diff, the batch is the
single timestamp header row followed by the rows of the grid in order;
every append call in the trace submits exactly the rows of that batch not
present among the fetched existing rows; a row belongs to the filtered
batch exactly when it is in the batch and not in the existing rows; and
the filtered batch is a sublist of the batch, so the original order is
preserved. -/
theorem diff_batch_correct (ledger : Ledger) (fn : String) (env : FileEnv)
    (g ex : Grid)
    (hskip : ¬ ledgerGet ledger fn = some env.mtime)
    (hread : env.readResult = .ok g) (hg : g ≠ [])
    (hfetch : env.fetchResult = .ok ex) :
    (([headerRow env.timestamp] ++ g).filter
        (fun row => decide (row ∉ ex)) ≠ [] →
      Obs.append (([headerRow env.timestamp] ++ g).filter
          (fun row => decide (row ∉ ex)))
        ∈ (processFile ledger fn env).1) ∧
    (∀ rows, Obs.append rows ∈ (processFile ledger fn env).1 →
      rows = ([headerRow env.timestamp] ++ g).filter
        (fun row => decide (row ∉ ex))) ∧
    (∀ row, row ∈ ([headerRow env.timestamp] ++ g).filter
        (fun row => decide (row ∉ ex)) ↔
      (row ∈ [headerRow env.timestamp] ++ g ∧ row ∉ ex)) ∧
    (([headerRow env.timestamp] ++ g).filter
        (fun row => decide (row ∉ ex))).Sublist
      ([headerRow env.timestamp] ++ g) := by
  rw [processFile_eq_check _ _ _ hskip,
    processFileBody_eq _ _ _ _ _ hread hg hfetch]
  refine ⟨?_, ?_, ?_, List.filter_sublist _⟩
  · intro hfil
    rw [if_neg hfil]
    cases env.appendResult with
    | error e => simp
    | ok u =>
        cases env.saveResult with
        | ok v => simp
        | error e => simp
  · intro rows hrows
    revert hrows
    by_cases hfil : ([headerRow env.timestamp] ++ g).filter
        (fun row => decide (row ∉ ex)) = []
    · rw [if_pos hfil]
      simp
    · rw [if_neg hfil]
      cases env.appendResult with
      | error e => simp
      | ok u =>
          cases env.saveResult with
          | ok v => simp
          | error e => simp
  · intro row
    simp [List.mem_filter]

/-- Concrete instance of diff_batch_correct: one shared row is dropped,
one new row and the header remain. -/
def envC1 : FileEnv :=
  ⟨3, "T", .ok [["x", "1"], ["y", "2"]], .ok [["x", "1"]], .ok (), .ok ()⟩

theorem diff_batch_correct_witness :
    (¬ ledgerGet [] "a.xlsx" = some envC1.mtime ∧
      envC1.readResult = .ok [["x", "1"], ["y", "2"]] ∧
      ([["x", "1"], ["y", "2"]] : Grid) ≠ [] ∧
      envC1.fetchResult = .ok [["x", "1"]]) ∧
    ((([headerRow envC1.timestamp] ++ [["x", "1"], ["y", "2"]]).filter
        (fun row => decide (row ∉ ([["x", "1"]] : Grid))) ≠ [] →
      Obs.append (([headerRow envC1.timestamp] ++ [["x", "1"], ["y", "2"]]).filter
          (fun row => decide (row ∉ ([["x", "1"]] : Grid))))
        ∈ (processFile [] "a.xlsx" envC1).1) ∧
    (∀ rows, Obs.append rows ∈ (processFile [] "a.xlsx" envC1).1 →
      rows = ([headerRow envC1.timestamp] ++ [["x", "1"], ["y", "2"]]).filter
        (fun row => decide (row ∉ ([["x", "1"]] : Grid)))) ∧
    (∀ row, row ∈ ([headerRow envC1.timestamp] ++ [["x", "1"], ["y", "2"]]).filter
        (fun row => decide (row ∉ ([["x", "1"]] : Grid))) ↔
      (row ∈ [headerRow envC1.timestamp] ++ [["x", "1"], ["y", "2"]] ∧
        row ∉ ([["x", "1"]] : Grid))) ∧
    (([headerRow envC1.timestamp] ++ [["x", "1"], ["y", "2"]]).filter
        (fun row => decide (row ∉ ([["x", "1"]] : Grid)))).Sublist
      ([headerRow envC1.timestamp] ++ [["x", "1"], ["y", "2"]])) :=
  ⟨⟨by decide, rfl, by decide, rfl⟩,
    diff_batch_correct [] "a.xlsx" envC1 [["x", "1"], ["y", "2"]] [["x", "1"]]
      (by decide) rfl (by decide) rfl⟩

/-- C2: for a file that reaches the append, a successful append leaves
the ledger mapping the filename to the modification time read for it this
pass and submits the updated mapping to the ledger save; a failed append
leaves the ledger exactly as before the attempt and saves nothing, so the
file is retried on the next pass. -/
theorem ledger_update_after_append (ledger : Ledger) (fn : String)
    (env : FileEnv) (g ex : Grid)
    (hskip : ¬ ledgerGet ledger fn = some env.mtime)
    (hread : env.readResult = .ok g) (hg : g ≠ [])
    (hfetch : env.fetchResult = .ok ex)
    (hfil : ([headerRow env.timestamp] ++ g).filter
        (fun row => decide (row ∉ ex)) ≠ []) :
    (env.appendResult = .ok () →
      (processFile ledger fn env).2 = ledgerSet ledger fn env.mtime ∧
      ledgerGet (processFile ledger fn env).2 fn = some env.mtime ∧
      Obs.saveLedger (ledgerSet ledger fn env.mtime)
        ∈ (processFile ledger fn env).1) ∧
    (∀ e, env.appendResult = .error e →
      (processFile ledger fn env).2 = ledger ∧
      (∀ l, Obs.saveLedger l ∉ (processFile ledger fn env).1)) := by
  rw [processFile_eq_check _ _ _ hskip,
    processFileBody_eq _ _ _ _ _ hread hg hfetch, if_neg hfil]
  constructor
  · intro hA
    rw [hA]
    cases env.saveResult with
    | ok v => exact ⟨rfl, ledgerGet_ledgerSet _ _ _, by simp⟩
    | error e => exact ⟨rfl, ledgerGet_ledgerSet _ _ _, by simp⟩
  · intro e hA
    rw [hA]
    exact ⟨rfl, by simp⟩

/-- Concrete instance of ledger_update_after_append, successful path. -/
def envC2 : FileEnv :=
  ⟨9, "T", .ok [["y"]], .ok [], .ok (), .ok ()⟩

theorem ledger_update_after_append_witness :
    (¬ ledgerGet [] "a.xlsx" = some envC2.mtime ∧
      envC2.readResult = .ok [["y"]] ∧ ([["y"]] : Grid) ≠ [] ∧
      envC2.fetchResult = .ok [] ∧
      ([headerRow envC2.timestamp] ++ [["y"]]).filter
        (fun row => decide (row ∉ ([] : Grid))) ≠ [] ∧
      envC2.appendResult = .ok ()) ∧
    ((processFile [] "a.xlsx" envC2).2 = ledgerSet [] "a.xlsx" envC2.mtime ∧
      ledgerGet (processFile [] "a.xlsx" envC2).2 "a.xlsx" = some envC2.mtime ∧
      Obs.saveLedger (ledgerSet [] "a.xlsx" envC2.mtime)
        ∈ (processFile [] "a.xlsx" envC2).1) :=
  ⟨⟨by decide, rfl, by decide, rfl, by decide, rfl⟩,
    (ledger_update_after_append [] "a.xlsx" envC2 [["y"]] []
      (by decide) rfl (by decide) rfl (by decide)).1 rfl⟩

/-- Concrete instance showing the fetch-failure behaviour of C4: the
fetch fails and is reported, yet the append call is still made, with the
whole batch, because the failed fetch is treated as an empty existing-row
list. This refutes the claim that the upload is aborted for that file
after a fetch failure. -/
def envC4 : FileEnv :=
  ⟨1, "T", .ok [["x"]], .error "network down", .ok (), .ok ()⟩

theorem fetch_failure_counterexample :
    Obs.emit (.uploadFailed (fetchErrMsg "network down"))
      ∈ (processFile [] "a.xlsx" envC4).1 ∧
    Obs.append [["Uploaded on: T"], ["x"]]
      ∈ (processFile [] "a.xlsx" envC4).1 := by
  decide

/-- C4 amended: a remote-fetch failure is reported, but the upload is not
aborted: the failed fetch yields the empty existing-row list, the diff
then keeps every batch row, and the append call is made with the full
batch of header row plus grid. -/
theorem fetch_failure_append_proceeds (ledger : Ledger) (fn : String)
    (env : FileEnv) (g : Grid) (e : String)
    (hskip : ¬ ledgerGet ledger fn = some env.mtime)
    (hread : env.readResult = .ok g) (hg : g ≠ [])
    (hfetch : env.fetchResult = .error e) :
    Obs.emit (.uploadFailed (fetchErrMsg e)) ∈ (processFile ledger fn env).1 ∧
    Obs.append ([headerRow env.timestamp] ++ g)
      ∈ (processFile ledger fn env).1 := by
  rw [processFile_eq_check _ _ _ hskip]
  unfold processFileBody
  rw [hread, hfetch]
  simp only [get_excel_data, get_existing_google_sheets_data]
  rw [if_neg hg]
  have hfil : ([headerRow env.timestamp] ++ g).filter
      (fun row => decide (row ∉ ([] : Grid))) = [headerRow env.timestamp] ++ g := by
    simp
  simp only [hfil]
  have hne : ¬ ([headerRow env.timestamp] ++ g = []) := by simp
  rw [if_neg hne]
  cases env.appendResult with
  | error e2 => simp
  | ok u =>
      cases env.saveResult with
      | ok v => simp
      | error e2 => simp

theorem fetch_failure_append_proceeds_witness :
    (¬ ledgerGet [] "a.xlsx" = some envC4.mtime ∧
      envC4.readResult = .ok [["x"]] ∧ ([["x"]] : Grid) ≠ [] ∧
      envC4.fetchResult = .error "network down") ∧
    (Obs.emit (.uploadFailed (fetchErrMsg "network down"))
        ∈ (processFile [] "a.xlsx" envC4).1 ∧
      Obs.append ([headerRow envC4.timestamp] ++ [["x"]])
        ∈ (processFile [] "a.xlsx" envC4).1) :=
  ⟨⟨by decide, rfl, by decide, rfl⟩,
    fetch_failure_append_proceeds [] "a.xlsx" envC4 [["x"]] "network down"
      (by decide) rfl (by decide) rfl⟩

/-- C6: in an iteration whose connectivity check fails, the iteration
contributes exactly the connectivity check, the disconnect signal, the
wait notice and the full-interval sleep: no folder listing, no per-file
processing and no ledger change; whatever follows is the next iteration,
which begins with the next connectivity check. -/
theorem disconnected_iteration (fuel i : Nat) (ledger : Ledger)
    (interval : Nat) (running : Nat → Bool) (envs : Nat → IterEnv)
    (hrun : running i = true) (hconn : (envs i).connected = false) :
    runLoop (fuel + 1) i ledger interval running envs
      = ([Obs.connCheck, Obs.emit .internetDisconnected,
          Obs.emit (.uploadFailed waitMsg), Obs.sleep interval]
          ++ (runLoop fuel (i + 1) ledger interval running envs).1,
         (runLoop fuel (i + 1) ledger interval running envs).2) := by
  have hiter : loopIter ledger interval (envs i)
      = ([Obs.connCheck, Obs.emit .internetDisconnected,
          Obs.emit (.uploadFailed waitMsg), Obs.sleep interval], ledger) := by
    unfold loopIter
    rw [hconn]
    simp
  conv_lhs => rw [runLoop]
  rw [if_pos hrun, hiter]

/-- Neutral per-file environment for loop-level witnesses. -/
def defaultFileEnv : FileEnv :=
  ⟨0, "T", .ok [], .ok [], .ok (), .ok ()⟩

/-- Loop environment with a failing connectivity check. -/
def envsC6 : Nat → IterEnv :=
  fun _ => ⟨false, true, .ok [], fun _ => defaultFileEnv⟩

theorem disconnected_iteration_witness :
    ((fun _ => true) 0 = true ∧ (envsC6 0).connected = false) ∧
    runLoop 1 0 [] 2 (fun _ => true) envsC6
      = ([Obs.connCheck, Obs.emit .internetDisconnected,
          Obs.emit (.uploadFailed waitMsg), Obs.sleep 2]
          ++ (runLoop 0 1 [] 2 (fun _ => true) envsC6).1,
         (runLoop 0 1 [] 2 (fun _ => true) envsC6).2) :=
  ⟨⟨rfl, rfl⟩,
    disconnected_iteration 0 0 [] 2 (fun _ => true) envsC6 rfl rfl⟩

/-- Trace decomposition of the for loop: one entry is handled, then the
rest, threading the ledger. -/
theorem processFiles_cons (ledger : Ledger) (fn : String) (rest : List String)
    (fenvs : String → FileEnv) :
    processFiles ledger (fn :: rest) fenvs
      = ((processEntry ledger fn fenvs).1
          ++ (processFiles (processEntry ledger fn fenvs).2 rest fenvs).1,
         (processFiles (processEntry ledger fn fenvs).2 rest fenvs).2) := rfl

/-- Entries failing the extension filter contribute nothing: the pass
equals the pass over the filtered entries. -/
theorem processFiles_filter (entries : List String) :
    ∀ (ledger : Ledger) (fenvs : String → FileEnv),
      processFiles ledger entries fenvs
        = processFiles ledger (entries.filter hasAllowedExt) fenvs := by
  induction entries with
  | nil => intro ledger fenvs; rfl
  | cons fn rest ih =>
      intro ledger fenvs
      by_cases h : hasAllowedExt fn
      · rw [processFiles_cons, List.filter_cons_of_pos h, processFiles_cons,
          ih (processEntry ledger fn fenvs).2 fenvs]
      · have hentry : processEntry ledger fn fenvs = ([], ledger) := by
          simp [processEntry, h]
        rw [processFiles_cons, hentry,
          List.filter_cons_of_neg (by simpa using h)]
        simp [ih ledger fenvs]

/-- C9: the extension filter keeps exactly the names carrying one of the
two allowed extensions as a case-sensitive character-sequence suffix; the
scan processes exactly the immediate entries passing that filter, in
order; a missing directory produces an error notice and no per-file
processing, while an existing empty directory produces no error and no
per-file processing, and neither touches the ledger. -/
theorem folder_scan_contract (ledger : Ledger) (envs : String → FileEnv) :
    (∀ name, hasAllowedExt name = true ↔
      (".xlsx".data <:+ name.data ∨ ".xls".data <:+ name.data)) ∧
    (∀ entries, processFiles ledger entries envs
      = processFiles ledger (entries.filter hasAllowedExt) envs) ∧
    scanPass ledger (.error ()) envs
      = ([Obs.listDir, Obs.emit (.uploadFailed folderNotFoundMsg)], ledger) ∧
    scanPass ledger (.ok []) envs = ([Obs.listDir], ledger) := by
  refine ⟨?_, fun entries => processFiles_filter entries ledger envs, rfl, rfl⟩
  intro name
  simp [hasAllowedExt, pyEndsWith]

/-- The first emission of processFile is the skip notice or the line 99
notice, according to the ledger check. -/
theorem processFile_first_obs (ledger : Ledger) (fn : String) (env : FileEnv) :
    Obs.emit (.uploadFailed (skipMsg fn)) ∈ (processFile ledger fn env).1 ∨
    Obs.emit (.uploadFailed (checkMsg fn)) ∈ (processFile ledger fn env).1 := by
  by_cases h : ledgerGet ledger fn = some env.mtime
  · left
    simp [processFile, h]
  · right
    rw [processFile_eq_check _ _ _ h]
    simp

/-- Every entry passing the extension filter is examined by the pass,
whatever the ledger state: its skip notice or its line 99 notice appears
in the trace. The running flag plays no part, because the for loop never
reads it. -/
theorem processFiles_examines (entries : List String) :
    ∀ (ledger : Ledger) (fenvs : String → FileEnv) (fn : String),
      fn ∈ entries → hasAllowedExt fn = true →
      (Obs.emit (.uploadFailed (skipMsg fn))
          ∈ (processFiles ledger entries fenvs).1 ∨
        Obs.emit (.uploadFailed (checkMsg fn))
          ∈ (processFiles ledger entries fenvs).1) := by
  induction entries with
  | nil =>
      intro ledger fenvs fn hmem hext
      exact absurd hmem (List.not_mem_nil fn)
  | cons a rest ih =>
      intro ledger fenvs fn hmem hext
      rw [processFiles_cons]
      rcases List.mem_cons.mp hmem with heq | hmem'
      · subst heq
        have hentry : processEntry ledger fn fenvs
            = processFile ledger fn (fenvs fn) := by
          simp [processEntry, hext]
        rcases processFile_first_obs ledger fn (fenvs fn) with h | h
        · left
          exact List.mem_append.mpr (Or.inl (by rw [hentry]; exact h))
        · right
          exact List.mem_append.mpr (Or.inl (by rw [hentry]; exact h))
      · rcases ih (processEntry ledger a fenvs).2 fenvs fn hmem' hext with h | h
        · left
          exact List.mem_append.mpr (Or.inr h)
        · right
          exact List.mem_append.mpr (Or.inr h)

/-- Follows the spec words of claim C7 only, not the source: a scan pass
that reads the keep-running flag before each per-file operation and stops
processing when it is cleared; running k is the flag value observed at
the check before the k-th file. The source for loop contains no such
check; this definition exists to compare the source behaviour with the
specified one. -/
def processFilesChecked (running : Nat → Bool) (k : Nat) (ledger : Ledger)
    (files : List String) (envs : String → FileEnv) : List Obs × Ledger :=
  match files with
  | [] => ([], ledger)
  | fn :: rest =>
      if running k then
        let r := processEntry ledger fn envs
        let r2 := processFilesChecked running (k + 1) r.2 rest envs
        (r.1 ++ r2.1, r2.2)
      else ([], ledger)

/-- Per-file environment under which every file is processed. -/
def envsC7 : String → FileEnv :=
  fun _ => ⟨1, "T", .ok [["x"]], .ok [], .ok (), .ok ()⟩

/-- Flag cleared after the first file: true at the first check only. -/
def flagC7 : Nat → Bool :=
  fun k => k == 0

/-- Concrete refutation of C7: with two eligible files and the
keep-running flag cleared after the first, the source pass still examines
the second file, while a pass that checked the flag between files, as the
claim describes, would not. The for loop of lines 89 to 130 never reads
the flag. -/
theorem stop_flag_counterexample :
    Obs.emit (.uploadFailed (checkMsg "b.xlsx"))
      ∈ (processFiles [] ["a.xlsx", "b.xlsx"] envsC7).1 ∧
    Obs.emit (.uploadFailed (checkMsg "b.xlsx"))
      ∉ (processFilesChecked flagC7 0 [] ["a.xlsx", "b.xlsx"] envsC7).1 := by
  decide

/-- C7 amended: the keep-running flag is observed only by the check at
the top of each interval; that check does stop the loop before any
further work, but the flag is not consulted between per-file operations,
so every eligible file of the current pass is examined regardless of the
flag. -/
theorem stop_flag_checked_at_loop_top (fuel i : Nat) (ledger : Ledger)
    (interval : Nat) (running : Nat → Bool) (envs : Nat → IterEnv)
    (entries : List String) (fenvs : String → FileEnv) (fn : String)
    (hstop : running i = false) (hmem : fn ∈ entries)
    (hext : hasAllowedExt fn = true) :
    runLoop (fuel + 1) i ledger interval running envs
      = ([Obs.emit (.uploadFailed stoppedMsg)], ledger) ∧
    (Obs.emit (.uploadFailed (skipMsg fn))
        ∈ (processFiles ledger entries fenvs).1 ∨
      Obs.emit (.uploadFailed (checkMsg fn))
        ∈ (processFiles ledger entries fenvs).1) := by
  constructor
  · conv_lhs => rw [runLoop]
    rw [if_neg (by simp [hstop])]
  · exact processFiles_examines entries ledger fenvs fn hmem hext

theorem stop_flag_checked_at_loop_top_witness :
    (flagC7 1 = false ∧ "b.xlsx" ∈ ["a.xlsx", "b.xlsx"] ∧
      hasAllowedExt "b.xlsx" = true) ∧
    (runLoop 1 1 [] 2 flagC7 envsC6
        = ([Obs.emit (.uploadFailed stoppedMsg)], []) ∧
      (Obs.emit (.uploadFailed (skipMsg "b.xlsx"))
          ∈ (processFiles [] ["a.xlsx", "b.xlsx"] envsC7).1 ∨
        Obs.emit (.uploadFailed (checkMsg "b.xlsx"))
          ∈ (processFiles [] ["a.xlsx", "b.xlsx"] envsC7).1)) :=
  ⟨⟨rfl, by decide, by decide⟩,
    stop_flag_checked_at_loop_top 0 1 [] 2 flagC7 envsC6
      ["a.xlsx", "b.xlsx"] envsC7 "b.xlsx" rfl (by decide) (by decide)⟩

/-- Concrete refutation of C8: with the ledger file present and its read
raising, the constructor of line 32 emits no message and the failure
propagates out of the constructor as an uncaught exception, contradicting
the claim that every ledger read or write failure is surfaced as a
notification and never a crash. -/
theorem ledger_load_failure_counterexample :
    initWorker true (.error "unpickling failed")
      = ([], Except.error "unpickling failed") := rfl

/-- C8 amended: a ledger save failure during a pass is caught by the
per-file handler of line 129 and surfaced as an upload_failed message,
and the loop continues; a ledger load failure at worker construction is
not surfaced: no message is emitted and the exception propagates out of
the constructor uncaught. -/
theorem ledger_io_failure_handling (e : String) (ledger : Ledger)
    (fn : String) (env : FileEnv) (g ex : Grid)
    (hskip : ¬ ledgerGet ledger fn = some env.mtime)
    (hread : env.readResult = .ok g) (hg : g ≠ [])
    (hfetch : env.fetchResult = .ok ex)
    (hfil : ([headerRow env.timestamp] ++ g).filter
        (fun row => decide (row ∉ ex)) ≠ [])
    (happ : env.appendResult = .ok ())
    (hsave : env.saveResult = .error e) :
    initWorker true (.error e) = ([], Except.error e) ∧
    Obs.emit (.uploadFailed (sendErrMsg fn e))
      ∈ (processFile ledger fn env).1 := by
  refine ⟨rfl, ?_⟩
  rw [processFile_eq_check _ _ _ hskip,
    processFileBody_eq _ _ _ _ _ hread hg hfetch, if_neg hfil, happ, hsave]
  simp

/-- Concrete instance of ledger_io_failure_handling. -/
def envC8 : FileEnv :=
  ⟨4, "T", .ok [["z"]], .ok [], .ok (), .error "disk full"⟩

theorem ledger_io_failure_handling_witness :
    (¬ ledgerGet [] "a.xlsx" = some envC8.mtime ∧
      envC8.readResult = .ok [["z"]] ∧ ([["z"]] : Grid) ≠ [] ∧
      envC8.fetchResult = .ok [] ∧
      ([headerRow envC8.timestamp] ++ [["z"]]).filter
        (fun row => decide (row ∉ ([] : Grid))) ≠ [] ∧
      envC8.appendResult = .ok () ∧ envC8.saveResult = .error "disk full") ∧
    (initWorker true (.error "disk full") = ([], Except.error "disk full") ∧
      Obs.emit (.uploadFailed (sendErrMsg "a.xlsx" "disk full"))
        ∈ (processFile [] "a.xlsx" envC8).1) :=
  ⟨⟨by decide, rfl, by decide, rfl, by decide, rfl, rfl⟩,
    ledger_io_failure_handling "disk full" [] "a.xlsx" envC8 [["z"]] []
      (by decide) rfl (by decide) rfl (by decide) rfl rfl⟩

end Code
